import Mathlib

/-!
Shallow embedding of the resilient multi-source story-retrieval pipeline
(`src/main.py`) together with proofs of the specification claims.

The Python source works on strings, JSON-backed counters and lists; the
embedding mirrors it with `String`/`List Char` functions, association lists
for the per-site counters, and explicit result records for the effectful
phases (adapter chain, delivery loop, history save).  Outcomes of external
calls (adapter results, Telegram send success, disk-space check) are
parameters of the corresponding functions, so every theorem quantifies over
them.
-/

namespace StoryBot

/-! ### Python-style string primitives

These mirror the exact semantics of the Python string operations that the
source uses: `in` (substring test), `str.split` on a non-empty separator,
`str.strip`, `str.lower`, negative slicing `s[-n:]`, and
`urllib.parse.unquote` (single-pass percent decoding). -/

/-- Substring test over character lists: `sub` occurs somewhere in `s`
(Python `sub in s`; the empty pattern matches everywhere). -/
def containsList (s sub : List Char) : Bool :=
  match s with
  | [] => sub.isEmpty
  | _ :: rest => sub.isPrefixOf s || containsList rest sub

/-- Python `sub in s` for strings. -/
def pyContains (s sub : String) : Bool :=
  containsList s.data sub.data

/-- Split a character list on every occurrence of the non-empty separator
`sep` (Python `str.split(sep)` semantics).  The fuel argument (one unit per
character) only makes the recursion structural: every step consumes at
least one character, so starting with `s.length` fuel the zero-fuel branch
is never reached. -/
def splitOnListGo (sep : List Char) : Nat → List Char → List (List Char)
  | _, [] => [[]]
  | 0, s => [s]
  | fuel + 1, c :: rest =>
    if sep.isPrefixOf (c :: rest) then
      [] :: splitOnListGo sep fuel (rest.drop (sep.length - 1))
    else
      match splitOnListGo sep fuel rest with
      | [] => [[c]]
      | h :: t => (c :: h) :: t

/-- Python `s.split(sep)` for a non-empty separator (an empty separator is
never used by the source). -/
def pySplit (s sep : String) : List String :=
  match sep.data with
  | [] => [s]
  | _ :: _ => (splitOnListGo sep.data s.data.length s.data).map String.mk

/-- Join string pieces with a separator (used to rebuild the tail of a
Python `split(sep, 1)`). -/
def joinWith (sep : String) : List String → String
  | [] => ""
  | [x] => x
  | x :: xs => x ++ sep ++ joinWith sep xs

/-- Python `s.split(sep, 1)`: `none` when the separator does not occur,
otherwise the part before the first occurrence and everything after it. -/
def splitFirstOn (s sep : String) : Option (String × String) :=
  match pySplit s sep with
  | [] => none
  | [_] => none
  | h :: p :: ps => some (h, joinWith sep (p :: ps))

/-- Python `s.strip()` restricted to ASCII whitespace. -/
def pyStrip (s : String) : String :=
  String.mk (((s.data.dropWhile Char.isWhitespace).reverse.dropWhile Char.isWhitespace).reverse)

/-- Python `s.lower()` (ASCII case folding). -/
def strLower (s : String) : String :=
  String.mk (s.data.map Char.toLower)

/-- Python `s[-n:]`: the last `n` characters (whole string when shorter). -/
def takeRightStr (s : String) (n : Nat) : String :=
  String.mk (s.data.drop (s.data.length - n))

/-- Value of a hexadecimal digit. -/
def hexVal (c : Char) : Option Nat :=
  if '0' ≤ c ∧ c ≤ '9' then some (c.toNat - '0'.toNat)
  else if 'a' ≤ c ∧ c ≤ 'f' then some (c.toNat - 'a'.toNat + 10)
  else if 'A' ≤ c ∧ c ≤ 'F' then some (c.toNat - 'A'.toNat + 10)
  else none

/-- Single-pass percent decoding over characters: each `%XY` with hex digits
`X`, `Y` becomes the character with code `16*X+Y`; malformed escapes are kept
verbatim (`urllib.parse.unquote` on ASCII data). -/
def percentDecodeList : List Char → List Char
  | [] => []
  | '%' :: h1 :: h2 :: rest =>
    match hexVal h1, hexVal h2 with
    | some a, some b => Char.ofNat (16 * a + b) :: percentDecodeList rest
    | _, _ => '%' :: percentDecodeList (h1 :: h2 :: rest)
  | c :: rest => c :: percentDecodeList rest

/-- Python `urllib.parse.unquote` (ASCII data). -/
def unquote (s : String) : String :=
  String.mk (percentDecodeList s.data)

/-- Python `urllib.parse.unquote_plus`: `+` becomes a space, then percent
decoding. -/
def unquotePlus (s : String) : String :=
  unquote (String.mk (s.data.map (fun c => if c = '+' then ' ' else c)))

/-! ### `urllib.parse.urlparse` / `parse_qs` -/

/-- The components of a split URL that the source consults. -/
structure UrlParts where
  scheme : String
  netloc : String
  path : String
  query : String
  fragment : String

/-- A character allowed in a URL scheme. -/
def isSchemeChar (c : Char) : Bool :=
  c.isAlphanum || c == '+' || c == '-' || c == '.'

/-- Split off a leading `scheme:` if the text before the first `:` is a
well-formed scheme (CPython `urlsplit`). -/
def splitScheme (url : String) : String × String :=
  match pySplit url ":" with
  | head :: p2 :: ps =>
    if head.data ≠ [] ∧ (head.data.headD 'a').isAlpha ∧ head.data.all isSchemeChar then
      (strLower head, joinWith ":" (p2 :: ps))
    else ("", url)
  | _ => ("", url)

/-- CPython `urlparse` restricted to the fields the source reads
(scheme, netloc, query). -/
def urlparse (url : String) : UrlParts :=
  let sr := splitScheme url
  let scheme := sr.1
  let rest := sr.2
  let nr :=
    if "//".data.isPrefixOf rest.data then
      let body := rest.data.drop 2
      let netloc := body.takeWhile (fun c => c ≠ '/' ∧ c ≠ '?' ∧ c ≠ '#')
      (String.mk netloc, String.mk (body.drop netloc.length))
    else ("", rest)
  let netloc := nr.1
  let fr := (splitFirstOn nr.2 "#").getD (nr.2, "")
  let qr := (splitFirstOn fr.1 "?").getD (fr.1, "")
  ⟨scheme, netloc, qr.1, qr.2, fr.2⟩

/-- CPython `parse_qsl` with default options: split the query on `&`, keep
only fields of the form `name=value` with a non-empty value, and
plus/percent-decode names and values. -/
def parseQsl (qs : String) : List (String × String) :=
  (pySplit qs "&").filterMap (fun field =>
    if field == "" then none
    else
      match splitFirstOn field "=" with
      | none => none
      | some nv => if nv.2 == "" then none else some (unquotePlus nv.1, unquotePlus nv.2))

/-- `parse_qs(qs)[key][0]`: the first value bound to `key`, if any. -/
def qsFirst (qs key : String) : Option String :=
  ((parseQsl qs).find? (fun p => p.1 == key)).map (·.2)

/-! ### Link Normalizer (`extract_real_url`, `extract_instasaved_url`) -/

/-- `extract_real_url` from `src/main.py`: strip the IQSaved proxy wrapping.
New format `img2.php?url=...` takes the `url` query parameter and percent
decodes it (twice more, for double-encoded inputs); legacy format takes the
text after `filename=` up to the next `&` with one decode; anything else is
returned unchanged. -/
def extract_real_url (iqsaved_url : String) : String :=
  if pyContains iqsaved_url "img2.php?url=" then
    match qsFirst (urlparse iqsaved_url).query "url" with
    | some v => unquote (unquote v)
    | none => iqsaved_url
  else if pyContains iqsaved_url "filename=" then
    unquote ((pySplit ((pySplit iqsaved_url "filename=").getD 1 "") "&").headD "")
  else iqsaved_url

/-- Value of a base64 alphabet character. -/
def b64Val (c : Char) : Option Nat :=
  if 'A' ≤ c ∧ c ≤ 'Z' then some (c.toNat - 'A'.toNat)
  else if 'a' ≤ c ∧ c ≤ 'z' then some (c.toNat - 'a'.toNat + 26)
  else if '0' ≤ c ∧ c ≤ '9' then some (c.toNat - '0'.toNat + 52)
  else if c = '+' then some 62
  else if c = '/' then some 63
  else none

/-- Decode base64 quartets into bytes; `=` padding is accepted only at the
end, anything else fails (as `base64.b64decode` raises). -/
def b64Groups : List Char → Option (List Nat)
  | [] => some []
  | a :: b :: c :: d :: rest =>
    match b64Val a, b64Val b with
    | some va, some vb =>
      if c = '=' then
        if d = '=' ∧ rest = [] then some [va * 4 + vb / 16] else none
      else
        match b64Val c with
        | some vc =>
          if d = '=' then
            if rest = [] then some [va * 4 + vb / 16, vb % 16 * 16 + vc / 4] else none
          else
            match b64Val d with
            | some vd =>
              (b64Groups rest).map
                (fun bs => (va * 4 + vb / 16) :: (vb % 16 * 16 + vc / 4) :: (vc % 4 * 64 + vd) :: bs)
            | none => none
        | none => none
    | _, _ => none
  | _ => none

/-- Python `base64.b64decode` (default `validate=False`): characters
outside the alphabet are discarded, then the length must be a multiple of
four; `none` models the raised `binascii.Error`. -/
def b64decode (s : String) : Option (List Nat) :=
  let cs := s.data.filter (fun c => (b64Val c).isSome || c = '=')
  if cs.length % 4 == 0 then b64Groups cs else none

/-- A UTF-8 continuation byte. -/
def isContByte (b : Nat) : Bool :=
  0x80 ≤ b && b ≤ 0xBF

/-- Strict UTF-8 decoding of a byte list (`bytes.decode("utf-8")`); `none`
models the raised `UnicodeDecodeError`.  The fuel argument (one unit per
byte) only makes the recursion structural; every step consumes at least one
byte. -/
def utf8DecodeGo : Nat → List Nat → Option (List Char)
  | _, [] => some []
  | 0, _ => none
  | fuel + 1, b :: rest =>
    if b < 0x80 then (utf8DecodeGo fuel rest).map (fun cs => Char.ofNat b :: cs)
    else if 0xC2 ≤ b ∧ b ≤ 0xDF then
      match rest with
      | b2 :: rest2 =>
        if isContByte b2 then
          (utf8DecodeGo fuel rest2).map
            (fun cs => Char.ofNat ((b - 0xC0) * 0x40 + (b2 - 0x80)) :: cs)
        else none
      | [] => none
    else if 0xE0 ≤ b ∧ b ≤ 0xEF then
      match rest with
      | b2 :: b3 :: rest3 =>
        let lo2 := if b = 0xE0 then 0xA0 else 0x80
        let hi2 := if b = 0xED then 0x9F else 0xBF
        if lo2 ≤ b2 ∧ b2 ≤ hi2 ∧ isContByte b3 then
          (utf8DecodeGo fuel rest3).map
            (fun cs => Char.ofNat ((b - 0xE0) * 0x1000 + (b2 - 0x80) * 0x40 + (b3 - 0x80)) :: cs)
        else none
      | _ => none
    else if 0xF0 ≤ b ∧ b ≤ 0xF4 then
      match rest with
      | b2 :: b3 :: b4 :: rest4 =>
        let lo2 := if b = 0xF0 then 0x90 else 0x80
        let hi2 := if b = 0xF4 then 0x8F else 0xBF
        if lo2 ≤ b2 ∧ b2 ≤ hi2 ∧ isContByte b3 ∧ isContByte b4 then
          (utf8DecodeGo fuel rest4).map
            (fun cs =>
              Char.ofNat
                ((b - 0xF0) * 0x40000 + (b2 - 0x80) * 0x1000 + (b3 - 0x80) * 0x40 + (b4 - 0x80)) :: cs)
        else none
      | _ => none
    else none

/-- Strict UTF-8 decoding (entry point). -/
def utf8Decode (bytes : List Nat) : Option (List Char) :=
  utf8DecodeGo bytes.length bytes

/-- A character matched by `[^&\s]` in the source's base64-hunting regex. -/
def isB64RunChar (c : Char) : Bool :=
  !(c = '&' || c = ' ' || c = '\t' || c = '\n' || c = '\r' || c = '\x0b' || c = '\x0c')

/-- `re.search(r"(aHR0cHM6Ly[^&\s]+)", s)`: the leftmost occurrence of the
literal followed by a maximal non-empty run of `[^&\s]` characters. -/
def regexFindB64 : List Char → Option String
  | [] => none
  | c :: rest =>
    if "aHR0cHM6Ly".data.isPrefixOf (c :: rest) then
      let after := (c :: rest).drop 10
      let run := after.takeWhile isB64RunChar
      if run ≠ [] then some (String.mk ("aHR0cHM6Ly".data ++ run))
      else regexFindB64 rest
    else regexFindB64 rest

/-- `extract_instasaved_url` from `src/main.py`: percent-decode, pull the
`file=` parameter, locate the base64 payload (path form, query form, or by
regex), re-pad it to a multiple of four and base64/UTF-8 decode it; every
failure returns the original input. -/
def extract_instasaved_url (instasaved_url : String) : String :=
  let decoded_once := unquote instasaved_url
  if pyContains decoded_once "file=" then
    let file_param := (pySplit ((pySplit decoded_once "file=").getD 1 "") "&").headD ""
    let file_decoded := unquote file_param
    let b64str :=
      if pyContains file_decoded "/aHR0cHM6Ly" then
        let part := (pySplit file_decoded "/aHR0cHM6Ly").getD 1 ""
        some ("aHR0cHM6Ly" ++ (pySplit ((pySplit part "?").headD "") "&").headD "")
      else if pyContains file_decoded "?aHR0cHM6Ly" then
        let part := (pySplit file_decoded "?aHR0cHM6Ly").getD 1 ""
        some ("aHR0cHM6Ly" ++ (pySplit part "&").headD "")
      else regexFindB64 file_decoded.data
    match b64str with
    | none => instasaved_url
    | some b64 =>
      let padded :=
        if b64.data.length % 4 == 0 then b64
        else b64 ++ String.mk (List.replicate (4 - b64.data.length % 4) '=')
      match b64decode padded with
      | none => instasaved_url
      | some bytes =>
        match utf8Decode bytes with
        | none => instasaved_url
        | some cs => String.mk cs
  else instasaved_url

/-! ### Link Validator / Deduplicator (`validate_url_format`, `validate_links`) -/

/-- `validate_url_format` from `src/main.py`. -/
def validate_url_format (url : String) : Bool :=
  let p := urlparse url
  p.scheme != "" && p.netloc != "" && decide (10 ≤ url.data.length)

/-- The allow-list of host/extension patterns from `validate_links`. -/
def instagram_patterns : List String :=
  ["cdninstagram.com", "scontent.cdninstagram.com", "fbcdn.net", "instagram.f",
   "instagram.com", "scontent-", ".mp4", ".jpg", ".jpeg", ".png", ".webp"]

/-- One iteration of the `validate_links` loop: `none` when the link is
rejected, otherwise the (possibly proxy-decoded) link that is appended. -/
def validate_one_link (link0 : String) : Option String :=
  if link0 == "" then none
  else
    let link := pyStrip link0
    if link.data.length < 10 then none
    else
      let step :=
        if pyContains link "cdn.iqsaved.com" then
          let real := extract_real_url link
          if real == "" || real == link || !validate_url_format real then none else some real
        else if pyContains link "instasaved.net" && pyContains link "download-file" then
          let real := extract_instasaved_url link
          if real == "" || real == link || !validate_url_format real then none else some real
        else some link
      match step with
      | none => none
      | some l =>
        if !validate_url_format l then none
        else if !(instagram_patterns.any (fun p => pyContains (strLower l) p)) then none
        else if !("http://".data.isPrefixOf l.data || "https://".data.isPrefixOf l.data) then none
        else some l

/-- Final pass of `validate_links`: drop exact-string duplicates, keeping
the first occurrence. -/
def dedupKeepFirst (seen : List String) : List String → List String
  | [] => []
  | x :: rest =>
    if seen.contains x then dedupKeepFirst seen rest
    else x :: dedupKeepFirst (x :: seen) rest

/-- `validate_links` from `src/main.py`. -/
def validate_links (links : List String) : List String :=
  dedupKeepFirst [] (links.filterMap validate_one_link)

/-! ### Canonical id extraction (`get_clean_id`) -/

/-- The generic branch of `get_clean_id`: last `/`-delimited segment before
any query string, else the last 20 characters. -/
def genericCleanId (url : String) : String :=
  if pyContains url "/" then
    (pySplit ((pySplit url "/").getLastD "") "?").headD ""
  else takeRightStr url 20

/-- `get_clean_id` from `src/main.py`: Instasaved download links use the
decoded `file` parameter, everything else the final path segment. -/
def get_clean_id (url : String) : String :=
  if pyContains url "instasaved.net/download-file" then
    match qsFirst (urlparse url).query "file" with
    | some v =>
      let insta_url := unquote v
      if pyContains insta_url "/" then
        (pySplit ((pySplit insta_url "/").getLastD "") "?").headD ""
      else takeRightStr insta_url 20
    | none => genericCleanId url
  else genericCleanId url

/-! ### Adaptive Timeout Policy (`get_adaptive_timeout`) -/

/-- `get_adaptive_timeout` from `src/main.py`, as a function of the number
of consecutive failures read from the tracker (timeouts are Python ints,
modelled as `Int`; the source default for `base_timeout` is 25000). -/
def get_adaptive_timeout (consecutive_fails : Nat) (base_timeout : Int) : Int :=
  if consecutive_fails ≥ 3 then min 60000 (base_timeout + consecutive_fails * 5000)
  else if consecutive_fails == 0 then max 15000 (base_timeout - 5000)
  else base_timeout

/-! ### Health Tracker (`track_failure`) -/

/-- Functional update of an association list (Python dict assignment). -/
def setAssoc : List (String × Nat) → String → Nat → List (String × Nat)
  | [], k, v => [(k, v)]
  | (k0, v0) :: rest, k, v =>
    if k0 == k then (k, v) :: rest else (k0, v0) :: setAssoc rest k v

/-- `data["consecutive_fails"].get(site, 0)`. -/
def lookupFails (l : List (String × Nat)) (site : String) : Nat :=
  ((l.find? (fun p => p.1 == site)).map (·.2)).getD 0

/-- The persisted `failure_tracker.json` structure: per-site consecutive
failure counters, last-success marks, run statistics, plus the append-only
`error_log.txt` entries written on failures. -/
structure TrackerState where
  consecutiveFails : List (String × Nat)
  lastSuccess : List (String × String)
  totalRuns : Nat
  successfulRuns : Nat
  errorLog : List (String × String × String × Nat)

/-- The empty tracker created when `failure_tracker.json` is missing. -/
def initialTracker : TrackerState :=
  ⟨[], [], 0, 0, []⟩

/-- Dict assignment for the last-success map. -/
def setAssocStr : List (String × String) → String → String → List (String × String)
  | [], k, v => [(k, v)]
  | (k0, v0) :: rest, k, v =>
    if k0 == k then (k, v) :: rest else (k0, v0) :: setAssocStr rest k v

/-- `track_failure` from `src/main.py` (the file round-trip elided): bump
`total_runs`, reset the per-site counter on a benign status (recording the
timestamp and `successful_runs` on `SUCCESS`), otherwise increment it and
log an error entry.  Returns the new state and the value the function
returns (`data["consecutive_fails"].get(site, 0)` after the update). -/
def track_failure (st : TrackerState) (now site status : String) : TrackerState × Nat :=
  let st1 : TrackerState := { st with totalRuns := st.totalRuns + 1 }
  if ["SUCCESS", "NO_STORIES", "SERVER_UNAVAILABLE"].contains status then
    let st2 : TrackerState := { st1 with consecutiveFails := setAssoc st1.consecutiveFails site 0 }
    let st3 : TrackerState :=
      if status == "SUCCESS" then
        { st2 with lastSuccess := setAssocStr st2.lastSuccess site now,
                   successfulRuns := st2.successfulRuns + 1 }
      else st2
    (st3, lookupFails st3.consecutiveFails site)
  else
    let current_fails := lookupFails st1.consecutiveFails site
    let st2 : TrackerState :=
      { st1 with consecutiveFails := setAssoc st1.consecutiveFails site (current_fails + 1),
                 errorLog := st1.errorLog ++ [(now, site, status, current_fails + 1)] }
    (st2, lookupFails st2.consecutiveFails site)

/-- Record a sequence of statuses for one site, collecting the counter
values `track_failure` returns (the Health Tracker example of §8). -/
def trackSequence (st : TrackerState) (site : String) : List String → List Nat
  | [] => []
  | status :: rest =>
    let r := track_failure st "t" site status
    r.2 :: trackSequence r.1 site rest

/-! ### Retry Executor (`retry_with_backoff`) -/

/-- Observable outcome of one `retry_with_backoff` execution: the final
result, how many times the operation was invoked, the sleeps performed
between attempts (in seconds), and whether the exhausted-retries diagnostic
was written to `error_log.txt`. -/
structure RetryOutcome (ε α : Type) where
  result : Except ε α
  attempts : Nat
  sleeps : List Nat
  diagLogged : Bool

/-- The `for attempt in range(max_retries + 1)` loop of
`retry_with_backoff` at attempt `k` with `remaining` further attempts
allowed after this one (so `k + remaining = max_retries`); the behaviour of
the wrapped operation at each attempt is the oracle `f`.  On a failure that
is not the last attempt the loop sleeps `2^k + 1` seconds and retries; on
the last it logs the diagnostic entry and re-raises. -/
def retryGo (f : Nat → Except ε α) (k : Nat) : Nat → RetryOutcome ε α
  | 0 =>
    match f k with
    | .ok a => ⟨.ok a, 1, [], false⟩
    | .error e => ⟨.error e, 1, [], true⟩
  | remaining + 1 =>
    match f k with
    | .ok a => ⟨.ok a, 1, [], false⟩
    | .error _ =>
      let r := retryGo f (k + 1) remaining
      ⟨r.result, r.attempts + 1, (2 ^ k + 1) :: r.sleeps, r.diagLogged⟩

/-- `retry_with_backoff` from `src/main.py` (the source default is
`max_retries=1`; the orchestrator calls it with 1). -/
def retry_with_backoff (f : Nat → Except ε α) (max_retries : Nat) : RetryOutcome ε α :=
  retryGo f 0 max_retries

/-! ### Fallback Orchestrator (the source chain inside `run`) -/

/-- What one source attempt produced: its candidate links and its status
string (the `detail` string is irrelevant to the claims). -/
structure SourceResult where
  links : List String
  status : String

/-- The state of the four-source chain after the fallback phase of `run`:
final per-source results (as held by the `links_*` / `*_status` variables)
and whether each of the lower-priority sources was attempted. -/
structure ChainState where
  molly : SourceResult
  viewer : SourceResult
  insta : SourceResult
  iq : SourceResult
  viewerAttempted : Bool
  instaAttempted : Bool
  iqAttempted : Bool

/-- The fallback chain of `run` (`src/main.py` lines 1401-1453):
Mollygram is always attempted; StoriesViewer only when Mollygram yielded no
links; Instasaved only when both above yielded none (otherwise status
`SKIPPED_SUCCESS`); IQSaved only when all three yielded none (otherwise it
keeps its initial `NOT_TESTED`).  The adapters' outcomes (including `CRASH`
set by the surrounding `except` clauses) are inputs. -/
def runChain (m v i q : SourceResult) : ChainState :=
  if m.links.isEmpty then
    if v.links.isEmpty then
      if i.links.isEmpty then
        ⟨m, v, i, q, true, true, true⟩
      else ⟨m, v, i, ⟨[], "NOT_TESTED"⟩, true, true, false⟩
    else ⟨m, v, ⟨[], "SKIPPED_SUCCESS"⟩, ⟨[], "NOT_TESTED"⟩, true, false, false⟩
  else ⟨m, ⟨[], "SKIPPED_SUCCESS"⟩, ⟨[], "SKIPPED_SUCCESS"⟩, ⟨[], "NOT_TESTED"⟩, false, false, false⟩

/-- `*_ok` in the health check: status `SUCCESS` and at least one link. -/
def successWithLinks (r : SourceResult) : Bool :=
  r.status == "SUCCESS" && !r.links.isEmpty

/-- `any_success` (`src/main.py` line 1602). -/
def anySuccess (c : ChainState) : Bool :=
  successWithLinks c.molly || successWithLinks c.viewer ||
    successWithLinks c.insta || successWithLinks c.iq

/-- `all_no_links` (`src/main.py` lines 1627-1631); note that IQSaved's
status is not consulted. -/
def allNoLinks (c : ChainState) : Bool :=
  ["NO_LINKS", "NOT_TESTED"].contains c.molly.status &&
    ["NO_LINKS", "NOT_TESTED", "SKIPPED_SUCCESS"].contains c.viewer.status &&
    ["NO_LINKS", "NOT_TESTED", "SKIPPED_SUCCESS"].contains c.insta.status

/-- Whether the critical `send_telegram(critical_alert)` of the health
check fires (`src/main.py` lines 1625-1643). -/
def criticalAlertSent (c : ChainState) : Bool :=
  !anySuccess c && !allNoLinks c

/-- Modelled from the spec: the benign status set
{NO_RESULTS, NOT_TRIED, SKIPPED, UPSTREAM_UNAVAILABLE} of §4.4/§7, written
in the code's status vocabulary (the spec file names the code's
`NO_STORIES`/`NO_LINKS` outcomes NO_RESULTS, `NOT_TESTED` NOT_TRIED,
`SKIPPED_SUCCESS` SKIPPED and `SERVER_UNAVAILABLE` UPSTREAM_UNAVAILABLE).
This definition follows the spec's words, for comparison with the code's
`allNoLinks`. -/
def specBenignStatuses : List String :=
  ["NO_STORIES", "NO_LINKS", "NOT_TESTED", "SKIPPED_SUCCESS", "SERVER_UNAVAILABLE"]

/-! ### Delivery ledger and scheduler (the processing tail of `run`) -/

/-- `SOGLIA_ALLUVIONE`, the flood threshold. -/
def SOGLIA_ALLUVIONE : Nat := 150

/-- `MAX_HISTORY`, the ledger capacity bound. -/
def MAX_HISTORY : Nat := 300

/-- The `storie_da_processare` loop (`src/main.py` lines 1494-1501): keep
each link whose `clean_id` is truthy and not yet in `seen_processing_ids`
(initialised from the ledger), recording `(url, clean_id)` pairs; each kept
id immediately joins the seen set so duplicates among new links are
dropped. -/
def buildCandidatesGo (seenSet : List String) : List String → List (String × String)
  | [] => []
  | url :: rest =>
    let cid := get_clean_id url
    if cid ≠ "" ∧ ¬seenSet.contains cid then
      (url, cid) :: buildCandidatesGo (cid :: seenSet) rest
    else buildCandidatesGo seenSet rest

/-- The new stories of a run, given the ledger ids loaded at start and the
validated, reordered link list. -/
def buildCandidates (seen_ids tutti_i_link : List String) : List (String × String) :=
  buildCandidatesGo seen_ids tutti_i_link

/-- The Telegram delivery loop (`src/main.py` lines 1525-1565), indexed as
by `enumerate`: IQSaved proxy links are converted first (skipping the story
when the conversion comes back empty), a delivery call is issued for the
item, and on a non-raising send the clean id is appended to `ids_to_add`.
`sendOk i` tells whether the send attempt for story `i` completed without
an exception.  Returns the issued deliveries `(sent_url, clean_id)` and
`ids_to_add`. -/
def deliverLoopGo (sendOk : Nat → Bool) : Nat → List (String × String) →
    List (String × String) × List String
  | _, [] => ([], [])
  | i, (url, cid) :: rest =>
    let converted :=
      if pyContains url "cdn.iqsaved.com/img2.php" then
        let u := extract_real_url url
        if u == "" then none else some u
      else some url
    match converted with
    | none => deliverLoopGo sendOk (i + 1) rest
    | some u =>
      let r := deliverLoopGo sendOk (i + 1) rest
      ((u, cid) :: r.1, (if sendOk i then [cid] else []) ++ r.2)

/-- Result of the processing tail of one run. -/
structure RunOutput where
  deliveries : List (String × String)
  idsToAdd : List String
  historyWrite : Option (List String)

/-- The processing tail of `run` (`src/main.py` lines 1493-1583): filter
the validated links against the ledger, apply the flood guard
(`num_nuove > SOGLIA_ALLUVIONE` skips every delivery but still marks every
candidate seen), otherwise run the delivery loop; finally, when `ids_to_add`
is non-empty and the disk-space check passes, write the updated ledger
(truncated to the last `MAX_HISTORY` entries, blank ids skipped) — and
leave `history.txt` untouched otherwise. -/
def processDelivery (seen_ids tutti_i_link : List String) (sendOk : Nat → Bool)
    (diskOk : Bool) : RunOutput :=
  let cands := buildCandidates seen_ids tutti_i_link
  let num_nuove := cands.length
  let dl :=
    if num_nuove > SOGLIA_ALLUVIONE then (([] : List (String × String)), cands.map (·.2))
    else deliverLoopGo sendOk 0 cands
  let historyWrite :=
    if dl.2 ≠ [] ∧ diskOk then
      let updated := seen_ids ++ dl.2
      let truncated :=
        if updated.length > MAX_HISTORY then updated.drop (updated.length - MAX_HISTORY)
        else updated
      some (truncated.filter (fun sid => pyStrip sid ≠ ""))
    else none
  ⟨dl.1, dl.2, historyWrite⟩

/-! ### Concrete inputs used by the claims -/

/-- The §8 example input link: a generic proxy host wrapping a
percent-encoded Instagram CDN URL. -/
def exampleProxyLink : String :=
  "https://proxy.example/img2.php?url=https%3A%2F%2Fcdninstagram.com%2Fa.jpg"

/-- The same wrapped link on the proxy host the validator actually
normalizes (`cdn.iqsaved.com`). -/
def exampleIqsavedLink : String :=
  "https://cdn.iqsaved.com/img2.php?url=https%3A%2F%2Fcdninstagram.com%2Fa.jpg"

/-- The canonical artifact URL inside the two wrapped links above. -/
def exampleCanonicalUrl : String :=
  "https://cdninstagram.com/a.jpg"

/-- 151 distinct validated candidate links, one above the flood
threshold (the §8 flood-guard example). -/
def floodExampleLinks : List String :=
  (List.range 151).map (fun n => "https://cdninstagram.com/s" ++ toString n ++ ".jpg")

/-- The `track_failure` calls issued during one reachable run in which
Mollygram hits its user-not-found path (`check_mollygram` returns
`NO_STORIES` without tracking), StoriesViewer reports `NO_STORIES`
(`check_storiesviewer` tracks it), Instasaved and IQSaved report
`NO_LINKS` (both track it). -/
def scenarioTrackCalls : List (String × String) :=
  [("StoriesViewer", "NO_STORIES"), ("Instasaved", "NO_LINKS"), ("IQSaved", "NO_LINKS")]

/-- Fold a sequence of `track_failure` calls over the tracker state. -/
def applyTrackCalls (st : TrackerState) : List (String × String) → TrackerState
  | [] => st
  | (site, status) :: rest => applyTrackCalls (track_failure st "t" site status).1 rest

/-! ## Helper lemmas -/

theorem lookupFails_setAssoc_self (l : List (String × Nat)) (k : String) (v : Nat) :
    lookupFails (setAssoc l k v) k = v := by
  induction l with
  | nil => simp [setAssoc, lookupFails]
  | cons p rest ih =>
    obtain ⟨k0, v0⟩ := p
    by_cases h : k0 == k
    · simp [setAssoc, h, lookupFails, List.find?]
    · simp only [setAssoc, h, if_false, Bool.false_eq_true]
      simpa [lookupFails, List.find?, h] using ih

theorem trackFailure_totalRuns (st : TrackerState) (now site status : String) :
    (track_failure st now site status).1.totalRuns = st.totalRuns + 1 := by
  unfold track_failure
  split
  · split <;> rfl
  · rfl

/-! ## Claim theorems -/

/-- **C2.** For every run in which some source in the fixed priority order
yields at least one link, no lower-priority source is attempted: the chain
short-circuits on the first source that yields one or more links, so e.g.
when Mollygram yields zero links and StoriesViewer yields some, Instasaved
and IQSaved are never attempted. -/
theorem c2_fallback_short_circuit (m v i q : SourceResult) :
    (m.links ≠ [] →
      (runChain m v i q).viewerAttempted = false ∧
        (runChain m v i q).instaAttempted = false ∧ (runChain m v i q).iqAttempted = false) ∧
    (m.links = [] → v.links ≠ [] →
      (runChain m v i q).instaAttempted = false ∧ (runChain m v i q).iqAttempted = false) ∧
    (m.links = [] → v.links = [] → i.links ≠ [] → (runChain m v i q).iqAttempted = false) := by
  refine ⟨fun hm => ?_, fun hm hv => ?_, fun hm hv hi => ?_⟩
  · cases hml : m.links with
    | nil => exact absurd hml hm
    | cons a as => simp [runChain, hml]
  · cases hvl : v.links with
    | nil => exact absurd hvl hv
    | cons a as => simp [runChain, hm, hvl]
  · cases hil : i.links with
    | nil => exact absurd hil hi
    | cons a as => simp [runChain, hm, hv, hil]

/-- Witness for C2: with Mollygram empty and StoriesViewer successful with
one link, neither Instasaved nor IQSaved is attempted. -/
theorem c2_witness :
    (runChain ⟨[], "NO_LINKS"⟩ ⟨["https://cdninstagram.com/a.jpg"], "SUCCESS"⟩
        ⟨[], "NOT_TESTED"⟩ ⟨[], "NOT_TESTED"⟩).instaAttempted = false ∧
      (runChain ⟨[], "NO_LINKS"⟩ ⟨["https://cdninstagram.com/a.jpg"], "SUCCESS"⟩
        ⟨[], "NOT_TESTED"⟩ ⟨[], "NOT_TESTED"⟩).iqAttempted = false :=
  (c2_fallback_short_circuit ⟨[], "NO_LINKS"⟩ ⟨["https://cdninstagram.com/a.jpg"], "SUCCESS"⟩
    ⟨[], "NOT_TESTED"⟩ ⟨[], "NOT_TESTED"⟩).2.1 rfl (by decide)

/-- **C4 counterexample.** On the spec's example input
`["https://proxy.example/img2.php?url=https%3A%2F%2Fcdninstagram.com%2Fa.jpg"]`
the Validator does *not* yield the canonical URL: `validate_links` applies
the Normalizer only to `cdn.iqsaved.com` links, so it accepts the raw proxy
link unchanged, its output does not contain
`"https://cdninstagram.com/a.jpg"`, and the clean_id of the accepted link
is `"img2.php"`, not `"a.jpg"`. -/
theorem c4_counterexample :
    validate_links [exampleProxyLink] = [exampleProxyLink] ∧
      exampleCanonicalUrl ∉ validate_links [exampleProxyLink] ∧
      get_clean_id exampleProxyLink = "img2.php" := by
  decide

/-- **C4 amended.** The Normalizer (`extract_real_url`) does decode the
spec's example proxy link to `"https://cdninstagram.com/a.jpg"`, but the
Validator accepts that raw link unchanged with clean_id `"img2.php"`;
the claimed behaviour (output contains the canonical URL and clean_id is
`"a.jpg"`) holds for the same wrapped link on the `cdn.iqsaved.com` host,
the proxy host that `validate_links` actually normalizes. -/
theorem c4_amended :
    extract_real_url exampleProxyLink = exampleCanonicalUrl ∧
      validate_links [exampleProxyLink] = [exampleProxyLink] ∧
      get_clean_id exampleProxyLink = "img2.php" ∧
      validate_links [exampleIqsavedLink] = [exampleCanonicalUrl] ∧
      get_clean_id exampleCanonicalUrl = "a.jpg" := by
  decide

/-- **C6.** Recording an outcome in {SUCCESS, NO_STORIES (= NO_RESULTS),
SERVER_UNAVAILABLE (= UPSTREAM_UNAVAILABLE)} sets the source's
consecutive-failure counter to 0, and recording any other outcome
increments it by 1 — both in the returned value and in the stored state;
in particular the sequence [FAIL, FAIL, FAIL, SUCCESS] from a fresh
tracker yields the counter sequence [1, 2, 3, 0]. -/
theorem c6_consecutive_failures (st : TrackerState) (now site status : String) :
    ((track_failure st now site status).2 =
        if ["SUCCESS", "NO_STORIES", "SERVER_UNAVAILABLE"].contains status then 0
        else lookupFails st.consecutiveFails site + 1) ∧
      (lookupFails (track_failure st now site status).1.consecutiveFails site =
        if ["SUCCESS", "NO_STORIES", "SERVER_UNAVAILABLE"].contains status then 0
        else lookupFails st.consecutiveFails site + 1) ∧
      trackSequence initialTracker "X" ["FAIL", "FAIL", "FAIL", "SUCCESS"] = [1, 2, 3, 0] := by
  refine ⟨?_, ?_, by decide⟩ <;>
  · simp only [track_failure]
    split_ifs with hb hs <;> simp [lookupFails_setAssoc_self]

/-- **C7 counterexample.** The adaptive timeout is *not* strictly less
than the base timeout for every base when `consecutive_failures = 0`:
at `base_timeout = 15000` the result is `max 15000 10000 = 15000`. -/
theorem c7_counterexample : ¬ get_adaptive_timeout 0 15000 < 15000 := by
  decide

/-- **C7 amended.** The adaptive timeout equals
`min 60000 (base + failures*5000)` when `consecutive_failures ≥ 3`,
`max 15000 (base - 5000)` when it is 0, and `base` otherwise; it is
monotonically non-decreasing in the failure count for failures ≥ 3, and it
is strictly less than the base timeout when `consecutive_failures = 0`
*provided* `base_timeout > 15000` (for base ≤ 15000 the 15000 floor makes
it equal to or larger than the base). -/
theorem c7_adaptive_timeout (fails : Nat) (base : Int) :
    (3 ≤ fails → get_adaptive_timeout fails base = min 60000 (base + fails * 5000)) ∧
      (fails = 0 → get_adaptive_timeout fails base = max 15000 (base - 5000)) ∧
      (fails = 1 ∨ fails = 2 → get_adaptive_timeout fails base = base) ∧
      (∀ fails2, 3 ≤ fails → fails ≤ fails2 →
        get_adaptive_timeout fails base ≤ get_adaptive_timeout fails2 base) ∧
      (fails = 0 → 15000 < base → get_adaptive_timeout fails base < base) := by
  refine ⟨fun h3 => ?_, fun h0 => ?_, fun h12 => ?_, fun fails2 h3 hle => ?_, fun h0 hb => ?_⟩
  · simp [get_adaptive_timeout, h3]
  · simp [get_adaptive_timeout, h0]
  · rcases h12 with h | h <;> subst h <;> simp [get_adaptive_timeout]
  · have h3' : 3 ≤ fails2 := le_trans h3 hle
    simp only [get_adaptive_timeout, ge_iff_le, h3, h3', if_true]
    exact min_le_min le_rfl (by omega)
  · subst h0
    simp only [get_adaptive_timeout]
    norm_num
    omega

/-- Witness for C7 amended: at 5 consecutive failures the formula gives
`min 60000 50000`, and a healthy source with the default base 25000 gets a
strictly tighter budget. -/
theorem c7_witness :
    get_adaptive_timeout 5 25000 = min 60000 (25000 + (5 : Nat) * 5000) ∧
      get_adaptive_timeout 0 25000 < 25000 :=
  ⟨(c7_adaptive_timeout 5 25000).1 (by decide),
    (c7_adaptive_timeout 0 25000).2.2.2.2 rfl (by decide)⟩

/-- **C9 (code bug).** `total_runs` is incremented on *every*
`track_failure` call — i.e. once per recorded adapter outcome — not once
per orchestrator run: in the reachable run whose recorded outcomes are
`scenarioTrackCalls` (Mollygram's user-not-found path records nothing,
StoriesViewer records NO_STORIES, Instasaved and IQSaved record NO_LINKS),
`total_runs` grows by 3, contradicting "incremented exactly once per run
invocation". -/
theorem c9_total_runs_per_call :
    (∀ st now site status, (track_failure st now site status).1.totalRuns = st.totalRuns + 1) ∧
      (applyTrackCalls initialTracker scenarioTrackCalls).totalRuns = 3 ∧
      (applyTrackCalls initialTracker scenarioTrackCalls).totalRuns ≠ 1 :=
  ⟨trackFailure_totalRuns, by decide, by decide⟩

/-! ## Retry executor lemmas and C8 -/

theorem retryGo_attempts_pos (f : Nat → Except ε α) :
    ∀ remaining k, 1 ≤ (retryGo f k remaining).attempts := by
  intro remaining
  induction remaining with
  | zero => intro k; cases hf : f k <;> simp [retryGo, hf]
  | succ r ih => intro k; cases hf : f k <;> simp [retryGo, hf]

theorem retryGo_attempts_le (f : Nat → Except ε α) :
    ∀ remaining k, (retryGo f k remaining).attempts ≤ remaining + 1 := by
  intro remaining
  induction remaining with
  | zero => intro k; cases hf : f k <;> simp [retryGo, hf]
  | succ r ih =>
    intro k
    cases hf : f k with
    | ok a => simp [retryGo, hf]
    | error e =>
      simp only [retryGo, hf]
      exact Nat.succ_le_succ (ih (k + 1))

theorem retryGo_sleeps (f : Nat → Except ε α) :
    ∀ remaining k, (retryGo f k remaining).sleeps =
      (List.range ((retryGo f k remaining).attempts - 1)).map (fun j => 2 ^ (k + j) + 1) := by
  intro remaining
  induction remaining with
  | zero => intro k; cases hf : f k <;> simp [retryGo, hf]
  | succ r ih =>
    intro k
    cases hf : f k with
    | ok a => simp [retryGo, hf]
    | error e =>
      simp only [retryGo, hf]
      obtain ⟨a, ha⟩ : ∃ a, (retryGo f (k + 1) r).attempts = a + 1 :=
        ⟨(retryGo f (k + 1) r).attempts - 1,
          (Nat.succ_pred_eq_of_pos (retryGo_attempts_pos f r (k + 1))).symm⟩
      rw [ih (k + 1), ha]
      simp only [Nat.add_sub_cancel, List.range_succ_eq_map, List.map_cons, List.map_map,
        Nat.add_zero]
      congr 1
      refine List.map_congr_left (fun j _ => ?_)
      simp only [Function.comp_apply]
      rw [show k + (j + 1) = k + 1 + j by omega]

theorem retryGo_all_fail (f : Nat → Except ε α) :
    ∀ remaining k, (∀ j, k ≤ j → j ≤ k + remaining → ∃ e, f j = Except.error e) →
      (retryGo f k remaining).result = f (k + remaining) ∧
        (retryGo f k remaining).diagLogged = true ∧
        (retryGo f k remaining).attempts = remaining + 1 := by
  intro remaining
  induction remaining with
  | zero =>
    intro k h
    obtain ⟨e, he⟩ := h k le_rfl (by omega)
    simp [retryGo, he]
  | succ r ih =>
    intro k h
    obtain ⟨e, he⟩ := h k le_rfl (by omega)
    have hrec := ih (k + 1) (fun j h1 h2 => h j (by omega) (by omega))
    have hidx : k + 1 + r = k + (r + 1) := by omega
    rw [hidx] at hrec
    simp only [retryGo, he]
    exact ⟨hrec.1, hrec.2.1, by rw [hrec.2.2]⟩

/-- **C8.** For every fallible operation behaviour `f` and every `N`, the
retry executor with `max_retries = N` invokes the operation at most `N + 1`
times; the sleep performed after failed attempt `k` (0-indexed) and before
attempt `k + 1` is `2 ^ k + 1` seconds (so the sleeps performed are exactly
`[2^0+1, …]` up to the number of failed non-final attempts); and when all
`N + 1` attempts fail it writes the diagnostic entry and re-raises the last
failure. -/
theorem c8_retry_executor (f : Nat → Except ε α) (N : Nat) :
    (retry_with_backoff f N).attempts ≤ N + 1 ∧
      (retry_with_backoff f N).sleeps =
        (List.range ((retry_with_backoff f N).attempts - 1)).map (fun k => 2 ^ k + 1) ∧
      ((∀ k, k ≤ N → ∃ e, f k = Except.error e) →
        (retry_with_backoff f N).result = f N ∧
          (retry_with_backoff f N).diagLogged = true ∧
          (retry_with_backoff f N).attempts = N + 1) := by
  refine ⟨retryGo_attempts_le f N 0, ?_, fun h => ?_⟩
  · rw [retry_with_backoff, retryGo_sleeps f N 0]
    exact List.map_congr_left (fun j _ => by rw [Nat.zero_add])
  · have := retryGo_all_fail f N 0 (fun j h1 h2 => h j (by omega))
    rw [Nat.zero_add] at this
    exact this

/-- Witness for C8: an operation that always raises, executed with
`max_retries = 2`, is attempted 3 times, sleeps 2 then 3 seconds, logs the
diagnostic and re-raises the failure. -/
theorem c8_witness :
    (retry_with_backoff (fun _ => (Except.error 7 : Except Nat Nat)) 2).attempts = 3 ∧
      (retry_with_backoff (fun _ => (Except.error 7 : Except Nat Nat)) 2).result =
        Except.error 7 ∧
      (retry_with_backoff (fun _ => (Except.error 7 : Except Nat Nat)) 2).diagLogged = true ∧
      (retry_with_backoff (fun _ => (Except.error 7 : Except Nat Nat)) 2).sleeps = [2, 3] := by
  have h := (c8_retry_executor (fun _ => (Except.error 7 : Except Nat Nat)) 2).2.2
    (fun k _ => ⟨7, rfl⟩)
  exact ⟨h.2.2, h.1, h.2.1, by decide⟩

/-! ## C5: critical alert condition -/

/-- **C5 counterexample.** A reachable run in which every source reports a
benign no-content status (Mollygram and StoriesViewer `NO_STORIES`,
Instasaved and IQSaved `NO_LINKS` — all in the spec's benign set) and no
source produced any link, yet the code *does* send the critical alert:
`all_no_links` only accepts `NO_LINKS`/`NOT_TESTED`(/`SKIPPED_SUCCESS`),
so the claimed "no critical alert when every source reports a benign
no-content status" is false. -/
theorem c5_counterexample :
    criticalAlertSent
        (runChain ⟨[], "NO_STORIES"⟩ ⟨[], "NO_STORIES"⟩ ⟨[], "NO_LINKS"⟩ ⟨[], "NO_LINKS"⟩) =
      true ∧
      ((runChain ⟨[], "NO_STORIES"⟩ ⟨[], "NO_STORIES"⟩ ⟨[], "NO_LINKS"⟩
          ⟨[], "NO_LINKS"⟩).molly.links = [] ∧
        (runChain ⟨[], "NO_STORIES"⟩ ⟨[], "NO_STORIES"⟩ ⟨[], "NO_LINKS"⟩
          ⟨[], "NO_LINKS"⟩).viewer.links = [] ∧
        (runChain ⟨[], "NO_STORIES"⟩ ⟨[], "NO_STORIES"⟩ ⟨[], "NO_LINKS"⟩
          ⟨[], "NO_LINKS"⟩).insta.links = [] ∧
        (runChain ⟨[], "NO_STORIES"⟩ ⟨[], "NO_STORIES"⟩ ⟨[], "NO_LINKS"⟩
          ⟨[], "NO_LINKS"⟩).iq.links = []) ∧
      ([(runChain ⟨[], "NO_STORIES"⟩ ⟨[], "NO_STORIES"⟩ ⟨[], "NO_LINKS"⟩
            ⟨[], "NO_LINKS"⟩).molly.status,
          (runChain ⟨[], "NO_STORIES"⟩ ⟨[], "NO_STORIES"⟩ ⟨[], "NO_LINKS"⟩
            ⟨[], "NO_LINKS"⟩).viewer.status,
          (runChain ⟨[], "NO_STORIES"⟩ ⟨[], "NO_STORIES"⟩ ⟨[], "NO_LINKS"⟩
            ⟨[], "NO_LINKS"⟩).insta.status,
          (runChain ⟨[], "NO_STORIES"⟩ ⟨[], "NO_STORIES"⟩ ⟨[], "NO_LINKS"⟩
            ⟨[], "NO_LINKS"⟩).iq.status].all
        (fun s => specBenignStatuses.contains s)) = true := by
  decide

/-- **C5 amended.** The critical alert fires iff no source was attempted
with status `SUCCESS` and one or more links *and* the (Mollygram,
StoriesViewer, Instasaved) final statuses are not all in the code's
narrower benign sets — `{NO_LINKS, NOT_TESTED}` for Mollygram and
`{NO_LINKS, NOT_TESTED, SKIPPED_SUCCESS}` for the other two.  In
particular `NO_STORIES` and `SERVER_UNAVAILABLE` count as non-benign for
this check, IQSaved's failure status is never consulted, and any source
succeeding with links still suppresses the alert. -/
theorem c5_critical_alert (m v i q : SourceResult) :
    criticalAlertSent (runChain m v i q) =
      (!(successWithLinks m || (m.links.isEmpty && successWithLinks v) ||
            (m.links.isEmpty && v.links.isEmpty && successWithLinks i) ||
            (m.links.isEmpty && v.links.isEmpty && i.links.isEmpty && successWithLinks q)) &&
        !(["NO_LINKS", "NOT_TESTED"].contains m.status &&
            (!m.links.isEmpty || ["NO_LINKS", "NOT_TESTED", "SKIPPED_SUCCESS"].contains v.status) &&
            (!(m.links.isEmpty && v.links.isEmpty) ||
              ["NO_LINKS", "NOT_TESTED", "SKIPPED_SUCCESS"].contains i.status))) := by
  cases hml : m.links <;> cases hvl : v.links <;> cases hil : i.links <;>
    simp [runChain, criticalAlertSent, anySuccess, allNoLinks, successWithLinks, hml, hvl, hil]

/-! ## Delivery-pipeline lemmas and C1, C3, C10 -/

theorem buildCandidatesGo_not_seen :
    ∀ (links seenSet : List String) (p : String × String),
      p ∈ buildCandidatesGo seenSet links → seenSet.contains p.2 = false := by
  intro links
  induction links with
  | nil => intro seenSet p hp; simp [buildCandidatesGo] at hp
  | cons url rest ih =>
    intro seenSet p hp
    simp only [buildCandidatesGo] at hp
    split at hp
    · rename_i hcond
      rcases List.mem_cons.mp hp with hph | hpt
      · subst hph
        exact Bool.not_eq_true _ ▸ Bool.of_not_eq_true hcond.2
      · have h2 := ih (get_clean_id url :: seenSet) p hpt
        simp only [List.contains_cons, Bool.or_eq_false_iff] at h2
        exact h2.2
    · exact ih seenSet p hp

theorem buildCandidatesGo_eq_nil :
    ∀ (links seenSet : List String),
      (∀ url ∈ links, seenSet.contains (get_clean_id url) = true) →
      buildCandidatesGo seenSet links = [] := by
  intro links
  induction links with
  | nil => intro seenSet _; rfl
  | cons url rest ih =>
    intro seenSet h
    have hc := h url (List.mem_cons_self _ _)
    simp only [buildCandidatesGo]
    rw [if_neg (fun hcond => hcond.2 hc)]
    exact ih seenSet (fun u hu => h u (List.mem_cons_of_mem _ hu))

theorem deliverLoopGo_snd_mem (sendOk : Nat → Bool) :
    ∀ (cands : List (String × String)) (i : Nat) (p : String × String),
      p ∈ (deliverLoopGo sendOk i cands).1 → p.2 ∈ cands.map Prod.snd := by
  intro cands
  induction cands with
  | nil => intro i p hp; simp [deliverLoopGo] at hp
  | cons c rest ih =>
    intro i p hp
    obtain ⟨url, cid⟩ := c
    simp only [deliverLoopGo] at hp
    split at hp
    · exact List.mem_cons_of_mem _ (ih (i + 1) p hp)
    · rcases List.mem_cons.mp hp with hph | hpt
      · subst hph; exact List.mem_cons_self _ _
      · exact List.mem_cons_of_mem _ (ih (i + 1) p hpt)

/-- **C1.** For every clean_id present in the delivery ledger loaded at run
start, the run issues zero delivery calls for any candidate whose clean_id
equals it: every issued delivery carries a clean_id that is not in the
start-of-run ledger, so re-running with the same inputs produces no
additional deliveries for already-ledgered ids. -/
theorem c1_no_redelivery (seen_ids tutti_i_link : List String) (sendOk : Nat → Bool)
    (diskOk : Bool) (sid : String) (hsid : sid ∈ seen_ids) :
    ∀ p ∈ (processDelivery seen_ids tutti_i_link sendOk diskOk).deliveries, p.2 ≠ sid := by
  intro p hp heq
  have hcont : seen_ids.contains sid = true := List.elem_eq_true_of_mem hsid
  by_cases hflood :
      SOGLIA_ALLUVIONE < (buildCandidates seen_ids tutti_i_link).length
  · simp [processDelivery, hflood] at hp
  · simp only [processDelivery, gt_iff_lt, if_neg hflood] at hp
    have h2 := deliverLoopGo_snd_mem sendOk _ 0 p hp
    obtain ⟨c, hc, hcs⟩ := List.mem_map.mp h2
    have h3 := buildCandidatesGo_not_seen _ _ _ hc
    rw [hcs, heq, hcont] at h3
    exact Bool.true_eq_false ▸ h3

/-- Witness for C1: with ledger `["old.jpg"]` and one new candidate link,
the issued delivery's clean_id `"a.jpg"` differs from the ledgered id. -/
theorem c1_witness :
    ("old.jpg" : String) ∈ ["old.jpg"] ∧
      (("https://cdninstagram.com/a.jpg", "a.jpg") : String × String) ∈
        (processDelivery ["old.jpg"] ["https://cdninstagram.com/a.jpg"]
          (fun _ => true) true).deliveries ∧
      (("https://cdninstagram.com/a.jpg", "a.jpg") : String × String).2 ≠ "old.jpg" :=
  ⟨by decide, by decide,
    c1_no_redelivery ["old.jpg"] ["https://cdninstagram.com/a.jpg"] (fun _ => true) true
      "old.jpg" (by decide) ("https://cdninstagram.com/a.jpg", "a.jpg") (by decide)⟩

/-- **C3.** For every run whose count of new candidate artifacts strictly
exceeds the flood threshold of 150, the run issues zero delivery calls and
appends every candidate's clean_id to the ledger as seen: `ids_to_add` is
exactly the candidates' id list, and (when the disk check passes and the
batch fits the 300-entry ledger capacity) each non-blank id is contained in
the persisted `history.txt` contents. -/
theorem c3_flood_guard (seen_ids tutti_i_link : List String) (sendOk : Nat → Bool)
    (diskOk : Bool)
    (hflood : SOGLIA_ALLUVIONE < (buildCandidates seen_ids tutti_i_link).length) :
    (processDelivery seen_ids tutti_i_link sendOk diskOk).deliveries = [] ∧
      (processDelivery seen_ids tutti_i_link sendOk diskOk).idsToAdd =
        (buildCandidates seen_ids tutti_i_link).map Prod.snd ∧
      (diskOk = true → (buildCandidates seen_ids tutti_i_link).length ≤ MAX_HISTORY →
        ∃ written, (processDelivery seen_ids tutti_i_link sendOk diskOk).historyWrite =
            some written ∧
          ∀ p ∈ buildCandidates seen_ids tutti_i_link, pyStrip p.2 ≠ "" → p.2 ∈ written) := by
  have hids : (buildCandidates seen_ids tutti_i_link).map Prod.snd ≠ [] := by
    intro h0
    rw [← List.length_eq_zero, List.length_map] at h0
    omega
  refine ⟨by simp [processDelivery, hflood], by simp [processDelivery, hflood], ?_⟩
  intro hdisk hlen
  subst hdisk
  have hw : (processDelivery seen_ids tutti_i_link sendOk true).historyWrite =
      some ((if (seen_ids ++ (buildCandidates seen_ids tutti_i_link).map Prod.snd).length >
            MAX_HISTORY then
          (seen_ids ++ (buildCandidates seen_ids tutti_i_link).map Prod.snd).drop
            ((seen_ids ++ (buildCandidates seen_ids tutti_i_link).map Prod.snd).length -
              MAX_HISTORY)
        else seen_ids ++ (buildCandidates seen_ids tutti_i_link).map Prod.snd).filter
        (fun sid => pyStrip sid ≠ "")) := by
    simp only [processDelivery, gt_iff_lt, if_pos hflood]
    rw [if_pos ⟨hids, trivial⟩]
  refine ⟨_, hw, ?_⟩
  intro p hp hstrip
  have hmem : p.2 ∈ (buildCandidates seen_ids tutti_i_link).map Prod.snd :=
    List.mem_map_of_mem Prod.snd hp
  have hidslen : ((buildCandidates seen_ids tutti_i_link).map Prod.snd).length =
      (buildCandidates seen_ids tutti_i_link).length := List.length_map _ _
  refine List.mem_filter.mpr ⟨?_, decide_eq_true hstrip⟩
  split
  · rw [List.drop_append_of_le_length (by rw [List.length_append]; omega)]
    exact List.mem_append_right _ hmem
  · exact List.mem_append_right _ hmem

set_option maxRecDepth 100000 in
/-- Witness for C3: 151 distinct candidates with an empty ledger — above
the threshold, the run issues zero deliveries and marks all of them seen. -/
theorem c3_witness :
    SOGLIA_ALLUVIONE < (buildCandidates [] floodExampleLinks).length ∧
      (processDelivery [] floodExampleLinks (fun _ => true) true).deliveries = [] ∧
      (processDelivery [] floodExampleLinks (fun _ => true) true).idsToAdd =
        (buildCandidates [] floodExampleLinks).map Prod.snd := by
  have h : SOGLIA_ALLUVIONE < (buildCandidates [] floodExampleLinks).length := by decide
  exact ⟨h, (c3_flood_guard [] floodExampleLinks (fun _ => true) true h).1,
    (c3_flood_guard [] floodExampleLinks (fun _ => true) true h).2.1⟩

/-- **C10.** If every validated candidate's clean_id is already in the
ledger (or there are no candidates at all), the run issues no deliveries,
adds no ids, and leaves the persisted `history.txt` unmodified (no write
happens at all). -/
theorem c10_no_new_ids_no_write (seen_ids tutti_i_link : List String) (sendOk : Nat → Bool)
    (diskOk : Bool) (h : ∀ url ∈ tutti_i_link, get_clean_id url ∈ seen_ids) :
    (processDelivery seen_ids tutti_i_link sendOk diskOk).historyWrite = none ∧
      (processDelivery seen_ids tutti_i_link sendOk diskOk).deliveries = [] ∧
      (processDelivery seen_ids tutti_i_link sendOk diskOk).idsToAdd = [] := by
  have hnil : buildCandidates seen_ids tutti_i_link = [] :=
    buildCandidatesGo_eq_nil tutti_i_link seen_ids
      (fun url hu => List.elem_eq_true_of_mem (h url hu))
  simp [processDelivery, hnil, deliverLoopGo, SOGLIA_ALLUVIONE]

set_option maxRecDepth 100000 in
/-- Witness for C10: a run whose only candidate is already ledgered leaves
`history.txt` untouched. -/
theorem c10_witness :
    (∀ url ∈ ["https://cdninstagram.com/a.jpg"], get_clean_id url ∈ ["a.jpg"]) ∧
      (processDelivery ["a.jpg"] ["https://cdninstagram.com/a.jpg"]
        (fun _ => true) true).historyWrite = none :=
  ⟨by decide,
    (c10_no_new_ids_no_write ["a.jpg"] ["https://cdninstagram.com/a.jpg"]
      (fun _ => true) true (by decide)).1⟩

end StoryBot
